import Mathlib

/-!
Verification of the relevance-classification and analytics-aggregation pipeline
of the incident-support backend (src/main.py).

The Python functions `get_incidents_from_qdrant` (normalization of raw vector
search hits), `filter_incidents_for_analytics` (dynamic threshold + keyword
fallback classifier) and the counting core of `compute_analytics` are embedded
shallowly: dictionaries with `d.get(key, default)` access become structures of
`Option` fields read through `Option.getD`, Python floats become `ℚ`, and
`collections.Counter` becomes an insertion-ordered association list.
-/

/-- The payload of a raw Qdrant hit, as read by `get_incidents_from_qdrant`
(src/main.py lines 109-131).  Every field is read with `payload.get(k, "")`
except `number`, read with `payload.get("number")`; `Option` models a possibly
absent key. -/
structure Payload where
  number : Option String := none
  job_name : Option String := none
  description : Option String := none
  impact : Option String := none
  closure_notes : Option String := none
  assigned_to : Option String := none
  assignment_group : Option String := none
  configuration_item : Option String := none
  ci_class : Option String := none
  opened_by : Option String := none
  resolved_by : Option String := none
  closed_by : Option String := none
  opened_time : Option String := none
  resolved : Option String := none
  closed : Option String := none
  priority : Option String := none
  urgency : Option String := none
  state : Option String := none
  deriving DecidableEq, Repr

/-- One raw Qdrant search hit: `hit.get("payload", {})` and
`hit.get("score", 0.0)` (src/main.py lines 109 and 132). -/
structure Hit where
  payload : Option Payload := none
  score : Option ℚ := none
  deriving DecidableEq, Repr

/-- One normalized incident record, the dict built in src/main.py lines
113-133.  Downstream code reads it with `inc.get(k, default)` /
`inc.get(k) or ""`, so fields stay `Option`-typed; records built by the
normalizer have every field `some`. -/
structure Incident where
  incident : Option String := none
  job_name : Option String := none
  description : Option String := none
  impact : Option String := none
  closure_notes : Option String := none
  assigned_to : Option String := none
  assignment_group : Option String := none
  configuration_item : Option String := none
  ci_class : Option String := none
  opened_by : Option String := none
  resolved_by : Option String := none
  closed_by : Option String := none
  opened_time : Option String := none
  resolved : Option String := none
  closed : Option String := none
  priority : Option String := none
  urgency : Option String := none
  state : Option String := none
  similarity_score : Option ℚ := none
  deriving DecidableEq, Repr

/-- Normalization of a single hit, the body of the `for hit in results` loop of
`get_incidents_from_qdrant` (src/main.py lines 108-133): `payload =
hit.get("payload", {})`, `incident_id = payload.get("number")`, `if not
incident_id: continue` (Python falsiness: a missing key or an empty string is
skipped), then every string field defaults to `""` and the score is taken with
`hit.get("score", 0.0)`.  Returning `none` models `continue`. -/
def normalizeHit (hit : Hit) : Option Incident :=
  let payload := hit.payload.getD {}
  let incident_id := payload.number.getD ""
  if incident_id = "" then none
  else some {
    incident := some incident_id
    job_name := some (payload.job_name.getD "")
    description := some (payload.description.getD "")
    impact := some (payload.impact.getD "")
    closure_notes := some (payload.closure_notes.getD "")
    assigned_to := some (payload.assigned_to.getD "")
    assignment_group := some (payload.assignment_group.getD "")
    configuration_item := some (payload.configuration_item.getD "")
    ci_class := some (payload.ci_class.getD "")
    opened_by := some (payload.opened_by.getD "")
    resolved_by := some (payload.resolved_by.getD "")
    closed_by := some (payload.closed_by.getD "")
    opened_time := some (payload.opened_time.getD "")
    resolved := some (payload.resolved.getD "")
    closed := some (payload.closed.getD "")
    priority := some (payload.priority.getD "")
    urgency := some (payload.urgency.getD "")
    state := some (payload.state.getD "")
    similarity_score := some (hit.score.getD 0) }

/-- The incident list built by `get_incidents_from_qdrant` from the raw search
results (src/main.py lines 107-134): hits whose payload lacks a non-empty
`number` are skipped, all others are normalized in order. -/
def get_incidents_from_qdrant (results : List Hit) : List Incident :=
  results.filterMap normalizeHit

/-- `inc.get("similarity_score", 0.0)` (src/main.py lines 146 and 161). -/
def scoreOf (inc : Incident) : ℚ :=
  inc.similarity_score.getD 0

/-- `avg_score = sum(scores) / len(scores) if scores else 0.0` over
`scores = [inc.get("similarity_score", 0.0) for inc in incidents]`
(src/main.py lines 146-147). -/
def avg_score (incidents : List Incident) : ℚ :=
  let scores := incidents.map scoreOf
  if scores.isEmpty then 0 else scores.sum / (scores.length : ℚ)

/-- `dynamic_threshold = max(avg_score * 0.7, 0.6)` (src/main.py line 150). -/
def dynamic_threshold (incidents : List Incident) : ℚ :=
  max (avg_score incidents * (7 / 10)) (3 / 5)

/-- Python `s.split()`: split on runs of whitespace, dropping empty pieces. -/
def splitWhitespace (s : String) : List String :=
  (s.split Char.isWhitespace).filter (fun w => w ≠ "")

/-- `prompt_keywords = set(word.lower() for word in user_prompt.split() if
len(word) > 2)` (src/main.py line 155); the set becomes a deduplicated list,
which preserves membership and cardinality. -/
def promptKeywords (user_prompt : String) : List String :=
  ((splitWhitespace user_prompt).filterMap
    (fun word => if word.length > 2 then some word.toLower else none)).dedup

/-- Python substring containment `kw in text`. -/
def containsSubstr (text kw : String) : Bool :=
  decide (kw.toList <:+: text.toList)

/-- `incident_text = f"{incident.get('description', '')}
{incident.get('closure_notes', '')}".lower()` (src/main.py line 168): the two
fields joined by a single space, then lower-cased. -/
def incident_text (inc : Incident) : String :=
  ((inc.description.getD "") ++ " " ++ (inc.closure_notes.getD "")).toLower

/-- `matching_keywords / max(len(prompt_keywords), 1)` where
`matching_keywords = sum(1 for keyword in prompt_keywords if keyword in
incident_text)` (src/main.py lines 171-172). -/
def keyword_match_fraction (kws : List String) (inc : Incident) : ℚ :=
  ((kws.countP (fun kw => containsSubstr (incident_text inc) kw) : ℚ)) /
    ((max kws.length 1 : ℕ) : ℚ)

/-- The per-record branch of the classifier loop (src/main.py lines 160-177):
relevant when the score reaches the threshold, otherwise when at least 30% of
the prompt keywords occur in the incident text. -/
def isRelevant (thr : ℚ) (kws : List String) (inc : Incident) : Bool :=
  if thr ≤ scoreOf inc then true
  else decide ((3 : ℚ) / 10 ≤ keyword_match_fraction kws inc)

/-- `filter_incidents_for_analytics` (src/main.py lines 137-180): empty input
returns `([], [])`; otherwise each incident is appended, in input order, to the
relevant or the non-relevant list according to `isRelevant`. -/
def filter_incidents_for_analytics (incidents : List Incident)
    (user_prompt : String) : List Incident × List Incident :=
  if incidents = [] then ([], [])
  else
    let thr := dynamic_threshold incidents
    let kws := promptKeywords user_prompt
    (incidents.filter (fun inc => isRelevant thr kws inc),
     incidents.filter (fun inc => !(isRelevant thr kws inc)))

/-- `closed_states = {"closed", "resolved", "done", "completed"}`
(src/main.py line 257). -/
def closed_states : List String :=
  ["closed", "resolved", "done", "completed"]

/-- `open_states = {"open", "in_progress", "assigned", "pending", "new",
"active"}` (src/main.py line 258). -/
def open_states : List String :=
  ["open", "in_progress", "assigned", "pending", "new", "active"]

/-- `collections.Counter` as an insertion-ordered association list;
`counterAdd c k` is `c[k] += 1`: a key keeps its first-insertion position,
a new key is appended at the end. -/
def counterAdd : List (String × ℕ) → String → List (String × ℕ)
  | [], k => [(k, 1)]
  | (k', n) :: rest, k =>
    if k' = k then (k', n + 1) :: rest else (k', n) :: counterAdd rest k

/-- `c.get(k, 0)` / `c[k]` on a `Counter` (src/main.py lines 291-293). -/
def counterGet (c : List (String × ℕ)) (k : String) : ℕ :=
  match c.find? (fun p => p.1 = k) with
  | some p => p.2
  | none => 0

/-- Sum of all counts of a counter (`sum(c.values())`). -/
def counterTotal (c : List (String × ℕ)) : ℕ :=
  (c.map Prod.snd).sum

/-- The four counters of `compute_analytics` (src/main.py lines 261-264). -/
structure Counters where
  resolved_by_counter : List (String × ℕ) := []
  assignment_group_counter : List (String × ℕ) := []
  ci_class_counter : List (String × ℕ) := []
  state_counter : List (String × ℕ) := []
  deriving DecidableEq, Repr

/-- One iteration of the `for inc in relevant_incidents` aggregation loop of
`compute_analytics` (src/main.py lines 266-286): normalize the fields, bump
exactly one state bucket, credit the resolver only for a closed state with a
non-empty `resolved_by`, and count non-empty assignment groups and CI classes
unconditionally. -/
def aggregateStep (acc : Counters) (inc : Incident) : Counters :=
  let state := ((inc.state.getD "").trim).toLower
  let resolved_by := (inc.resolved_by.getD "").trim
  let assignment_group := (inc.assignment_group.getD "").trim
  let ci_class := (inc.ci_class.getD "").trim
  let acc1 :=
    if closed_states.contains state then
      { acc with
        state_counter := counterAdd acc.state_counter "Closed"
        resolved_by_counter :=
          if resolved_by ≠ "" then counterAdd acc.resolved_by_counter resolved_by
          else acc.resolved_by_counter }
    else if open_states.contains state then
      { acc with state_counter := counterAdd acc.state_counter "Open" }
    else
      { acc with state_counter := counterAdd acc.state_counter "Other" }
  let acc2 :=
    if assignment_group ≠ "" then
      { acc1 with assignment_group_counter :=
          counterAdd acc1.assignment_group_counter assignment_group }
    else acc1
  if ci_class ≠ "" then
    { acc2 with ci_class_counter := counterAdd acc2.ci_class_counter ci_class }
  else acc2

/-- The whole aggregation loop over the relevant incidents
(src/main.py lines 261-286). -/
def aggregateCounters (relevant : List Incident) : Counters :=
  relevant.foldl aggregateStep {}

/-- Stable descending insertion for `Counter.most_common`: the new entry is
placed before the first existing entry whose count is not larger, so earlier
entries win ties. -/
def insertCountDesc (x : String × ℕ) : List (String × ℕ) → List (String × ℕ)
  | [] => [x]
  | y :: ys => if x.2 < y.2 then y :: insertCountDesc x ys else x :: y :: ys

/-- Stable sort of counter entries by count descending. -/
def sortCountDesc : List (String × ℕ) → List (String × ℕ)
  | [] => []
  | x :: xs => insertCountDesc x (sortCountDesc xs)

/-- `Counter.most_common(n)` (src/main.py lines 296-298): entries sorted by
count descending, ties in first-insertion order (the documented behaviour of
`heapq.nlargest` over the dict iteration order), truncated to `n`. -/
def mostCommon (c : List (String × ℕ)) (n : ℕ) : List (String × ℕ) :=
  (sortCountDesc c).take n

/-- The numeric/data content of the analytics summary built by
`compute_analytics` (src/main.py lines 288-298 and 389). -/
structure AnalyticsData where
  related_count : ℕ
  non_related_count : ℤ
  closed : ℕ
  open_ : ℕ
  other : ℕ
  top_resolvers : List (String × ℕ)
  top_groups : List (String × ℕ)
  top_ci_classes : List (String × ℕ)
  deriving DecidableEq, Repr

/-- The data path of `compute_analytics` (src/main.py lines 183-298): an empty
input batch and an empty relevant set each short-circuit to an HTML-only
placeholder (modelled as `none`); otherwise the counters are aggregated over
the relevant incidents and summarized.  Line 289 computes
`non_related_count = 40 - len(relevant_incidents)` with a hard-coded 40. -/
def compute_analytics_data (incidents : List Incident) (user_prompt : String) :
    Option AnalyticsData :=
  if incidents = [] then none
  else
    let relevant_incidents := (filter_incidents_for_analytics incidents user_prompt).1
    if relevant_incidents = [] then none
    else
      let c := aggregateCounters relevant_incidents
      some {
        related_count := relevant_incidents.length
        non_related_count := 40 - (relevant_incidents.length : ℤ)
        closed := counterGet c.state_counter "Closed"
        open_ := counterGet c.state_counter "Open"
        other := counterGet c.state_counter "Other"
        top_resolvers := mostCommon c.resolved_by_counter 10
        top_groups := mostCommon c.assignment_group_counter 8
        top_ci_classes := mostCommon c.ci_class_counter 6 }

/-- Claim C1: for every non-empty batch, the relevance threshold equals
`max(mean(scores) * 0.7, 0.6)`, and consequently it is always at least 0.6. -/
theorem claim1_threshold (incidents : List Incident) (h : incidents ≠ []) :
    dynamic_threshold incidents =
      max (((incidents.map scoreOf).sum / ((incidents.map scoreOf).length : ℚ)) * (7 / 10))
        ((3 : ℚ) / 5)
    ∧ (3 : ℚ) / 5 ≤ dynamic_threshold incidents := by
  refine ⟨?_, le_max_right _ _⟩
  have hne : (incidents.map scoreOf).isEmpty = false := by
    cases incidents with
    | nil => exact absurd rfl h
    | cons x xs => rfl
  simp [dynamic_threshold, avg_score, hne]

/-- Witness for claim C1 at a concrete singleton batch. -/
theorem claim1_witness :
    ([({ similarity_score := some 1 } : Incident)] ≠ [])
    ∧ (dynamic_threshold [({ similarity_score := some 1 } : Incident)] =
        max ((([({ similarity_score := some 1 } : Incident)].map scoreOf).sum /
            (([({ similarity_score := some 1 } : Incident)].map scoreOf).length : ℚ)) * (7 / 10))
          ((3 : ℚ) / 5)
      ∧ (3 : ℚ) / 5 ≤ dynamic_threshold [({ similarity_score := some 1 } : Incident)]) :=
  ⟨by simp, claim1_threshold [{ similarity_score := some 1 }] (by simp)⟩

/-- Claim C2: the classifier's output pair partitions the input batch exactly:
the two lists are order-preserving subsequences of the input, their lengths add
up to the input length, no record occurs in both, and every occurrence of a
record is preserved (no duplication, no loss). -/
theorem claim2_partition (incidents : List Incident) (q : String) :
    ((filter_incidents_for_analytics incidents q).1.length
        + (filter_incidents_for_analytics incidents q).2.length = incidents.length)
    ∧ (filter_incidents_for_analytics incidents q).1.Sublist incidents
    ∧ (filter_incidents_for_analytics incidents q).2.Sublist incidents
    ∧ (∀ inc : Incident, inc ∈ (filter_incidents_for_analytics incidents q).1 →
        inc ∉ (filter_incidents_for_analytics incidents q).2)
    ∧ (∀ inc : Incident,
        (filter_incidents_for_analytics incidents q).1.count inc
          + (filter_incidents_for_analytics incidents q).2.count inc
          = incidents.count inc) := by
  by_cases h : incidents = []
  · subst h
    simp [filter_incidents_for_analytics]
  · have hperm :
        List.Perm
          ((filter_incidents_for_analytics incidents q).1 ++
            (filter_incidents_for_analytics incidents q).2) incidents := by
      simp only [filter_incidents_for_analytics, if_neg h]
      exact List.filter_append_perm _ incidents
    refine ⟨?_, ?_, ?_, ?_, ?_⟩
    · have := hperm.length_eq
      simpa using this
    · simp only [filter_incidents_for_analytics, if_neg h]
      exact List.filter_sublist incidents
    · simp only [filter_incidents_for_analytics, if_neg h]
      exact List.filter_sublist incidents
    · intro inc h1 h2
      simp only [filter_incidents_for_analytics, if_neg h, List.mem_filter] at h1 h2
      rw [h1.2] at h2
      simp at h2
    · intro inc
      have := hperm.count_eq inc
      simpa using this

/-- Witness for claim C2 at a concrete two-record batch and query. -/
theorem claim2_witness :
    (filter_incidents_for_analytics
        [({ description := some "db", similarity_score := some 1 } : Incident),
         ({ description := some "net", similarity_score := some (1 / 5) } : Incident)]
        "database down").1.length
      + (filter_incidents_for_analytics
        [({ description := some "db", similarity_score := some 1 } : Incident),
         ({ description := some "net", similarity_score := some (1 / 5) } : Incident)]
        "database down").2.length = 2 :=
  (claim2_partition
    [{ description := some "db", similarity_score := some 1 },
     { description := some "net", similarity_score := some (1 / 5) }]
    "database down").1

/-- The search text as claim C3 words it: the lower-cased concatenation of
`description` and `closure_notes`, with no separator.  The code
(`incident_text`, src/main.py line 168) instead joins the two fields with a
single space; this definition exists only to compare the claim's reading with
the code. -/
def claim3_search_text (inc : Incident) : String :=
  ((inc.description.getD "") ++ (inc.closure_notes.getD "")).toLower

/-- The keyword-match quotient as claim C3 words it, computed over
`claim3_search_text` instead of the code's space-joined `incident_text`. -/
def claim3_match_fraction (kws : List String) (inc : Incident) : ℚ :=
  ((kws.countP (fun kw => containsSubstr (claim3_search_text inc) kw) : ℚ)) /
    ((max kws.length 1 : ℕ) : ℚ)

/-- The concrete record of the claim C3 counterexample: description `"ab"`,
closure notes `"cd"`, similarity score 0. -/
def claim3_record : Incident :=
  { description := some "ab", closure_notes := some "cd", similarity_score := some 0 }

/-- Counterexample to claim C3 as stated: for `claim3_record` and the
single-keyword query "bcd", the claim's separator-free search text is `"abcd"`,
the keyword matches, the match quotient is 1 ≥ 0.3, and the score is below the
threshold, so the claim requires the record to be relevant; the code searches
`"ab cd"`, finds no match, and classifies it non-relevant. -/
theorem claim3_counterexample :
    scoreOf claim3_record < dynamic_threshold [claim3_record]
    ∧ (3 : ℚ) / 10 ≤ claim3_match_fraction (promptKeywords "bcd") claim3_record
    ∧ (filter_incidents_for_analytics [claim3_record] "bcd").1 = []
    ∧ (filter_incidents_for_analytics [claim3_record] "bcd").2 = [claim3_record] := by
  refine ⟨?_, ?_, ?_, ?_⟩ <;> with_unfolding_all decide

/-- Claim C3 (amended): as claim C3, except that the search text joins
`description` and `closure_notes` with a single space before lower-casing
(`incident_text`).  A record of a non-empty batch lands in the relevant list
iff its score reaches the threshold or at least 30% of the query keywords
occur in its search text, and in the non-relevant list otherwise. -/
theorem claim3_classification (incidents : List Incident) (q : String)
    (inc : Incident) (hmem : inc ∈ incidents) :
    (inc ∈ (filter_incidents_for_analytics incidents q).1 ↔
      (dynamic_threshold incidents ≤ scoreOf inc ∨
        (3 : ℚ) / 10 ≤ keyword_match_fraction (promptKeywords q) inc))
    ∧ (inc ∈ (filter_incidents_for_analytics incidents q).2 ↔
      (scoreOf inc < dynamic_threshold incidents ∧
        keyword_match_fraction (promptKeywords q) inc < (3 : ℚ) / 10)) := by
  have hne : incidents ≠ [] := by
    rintro rfl
    simp at hmem
  simp only [filter_incidents_for_analytics, if_neg hne, List.mem_filter,
    Bool.not_eq_eq_eq_not, Bool.not_true]
  constructor
  · rw [and_iff_right hmem]
    unfold isRelevant
    by_cases hth : dynamic_threshold incidents ≤ scoreOf inc
    · simp [hth]
    · simp [hth]
  · rw [and_iff_right hmem]
    unfold isRelevant
    by_cases hth : dynamic_threshold incidents ≤ scoreOf inc
    · simp [hth]
    · simp [hth, not_le.mp hth]

/-- The singleton batch exhibiting the claim C4 divergence. -/
def claim4_record : Incident :=
  { incident := some "INC0001", similarity_score := some 1 }

/-- Claim C4 (code bug): the claim says `non_related_count = top_k -
len(relevant)`, and the only caller retrieves with `top_k = 10`
(`get_incidents_from_qdrant`'s default, src/main.py lines 82 and 1074), but
src/main.py line 289 hard-codes `non_related_count = 40 -
len(relevant_incidents)`.  On a batch of one relevant record the code yields
39 where the claim requires 10 - 1 = 9. -/
theorem claim4_hardcoded_forty :
    ∃ d : AnalyticsData,
      compute_analytics_data [claim4_record] "alpha" = some d
      ∧ d.related_count = 1
      ∧ d.non_related_count = 39
      ∧ d.non_related_count ≠ (10 : ℤ) - (d.related_count : ℤ) := by
  refine ⟨⟨1, 39, 0, 0, 1, [], [], []⟩, ?_, ?_, ?_, ?_⟩
  all_goals with_unfolding_all decide

/-- Updating one list element changes the sum by the difference at that
position. -/
lemma sum_set_rat :
    ∀ (l : List ℚ) (i : ℕ) (a : ℚ) (hi : i < l.length),
      (l.set i a).sum = l.sum - l.get ⟨i, hi⟩ + a := by
  intro l
  induction l with
  | nil =>
    intro i a hi
    simp at hi
  | cons x xs ih =>
    intro i a hi
    cases i with
    | zero =>
      simp [List.set]
      ring
    | succ n =>
      have hn : n < xs.length := by simpa using hi
      simp [List.set, ih n a hn]
      ring

/-- Updating one list element changes a mapped sum by the difference at that
position. -/
lemma sum_map_set {α : Type} (f : α → ℚ) (l : List α) (i : ℕ) (a : α)
    (hi : i < l.length) :
    ((l.set i a).map f).sum = (l.map f).sum - f (l.get ⟨i, hi⟩) + f a := by
  have hlen : i < (l.map f).length := by simpa using hi
  rw [List.map_set, sum_set_rat (l.map f) i (f a) hlen]
  simp

/-- Raising the score of the record at position `i` keeps that record's score
at or above the recomputed dynamic threshold, provided it met the original
threshold: the threshold grows by at most 0.7/n times the raise. -/
lemma dynamic_threshold_set_le (incidents : List Incident) (i : ℕ)
    (hi : i < incidents.length) (inc' : Incident)
    (hsc : scoreOf (incidents.get ⟨i, hi⟩) ≤ scoreOf inc')
    (hrel : dynamic_threshold incidents ≤ scoreOf (incidents.get ⟨i, hi⟩)) :
    dynamic_threshold (incidents.set i inc') ≤ scoreOf inc' := by
  set s := scoreOf (incidents.get ⟨i, hi⟩) with hs_def
  set s' := scoreOf inc' with hs'_def
  set S := (incidents.map scoreOf).sum with hS_def
  set n : ℚ := ((incidents.length : ℕ) : ℚ) with hn_def
  have hlen_pos : 0 < incidents.length := Nat.lt_of_le_of_lt (Nat.zero_le i) hi
  have hn1 : (1 : ℚ) ≤ n := by
    rw [hn_def]
    exact_mod_cast Nat.one_le_iff_ne_zero.mpr (Nat.pos_iff_ne_zero.mp hlen_pos)
  have hne : (incidents.map scoreOf).isEmpty = false := by
    cases incidents with
    | nil => simp at hlen_pos
    | cons x xs => rfl
  have hne' : ((incidents.set i inc').map scoreOf).isEmpty = false := by
    cases hset : incidents.set i inc' with
    | nil =>
      rw [List.set_eq_nil_iff] at hset
      subst hset
      simp at hlen_pos
    | cons x xs => rfl
  have havg : avg_score incidents = S / n := by
    simp [avg_score, hne, hS_def, hn_def]
  have havg' : avg_score (incidents.set i inc') = (S - s + s') / n := by
    simp only [avg_score, hne', Bool.false_eq_true, if_false]
    rw [sum_map_set scoreOf incidents i inc' hi]
    simp [hS_def, hn_def, hs_def, hs'_def]
  have hbase : S / n * (7 / 10) ≤ s := by
    have := le_trans (le_max_left (avg_score incidents * (7 / 10)) ((3 : ℚ) / 5)) hrel
    rwa [havg] at this
  have hfloor : (3 : ℚ) / 5 ≤ s :=
    le_trans (le_max_right (avg_score incidents * (7 / 10)) ((3 : ℚ) / 5)) hrel
  have hd : (0 : ℚ) ≤ s' - s := by linarith
  have hdiv : (s' - s) / n ≤ s' - s := div_le_self hd hn1
  have hmul : (s' - s) / n * (7 / 10) ≤ (s' - s) / n := by
    have hpos : (0 : ℚ) ≤ (s' - s) / n := div_nonneg hd (by linarith)
    nlinarith
  have hsplit : (S - s + s') / n * (7 / 10) = S / n * (7 / 10) + (s' - s) / n * (7 / 10) := by
    ring
  rw [dynamic_threshold, havg']
  apply max_le
  · rw [hsplit]
    linarith
  · linarith

/-- Claim C5: raising the similarity score of a relevant record, all other
fields and records held fixed, keeps it in the relevant list of the
re-classified batch; a raised score never moves a record out of relevance. -/
theorem claim5_monotonicity (incidents : List Incident) (q : String) (i : ℕ)
    (hi : i < incidents.length) (s' : ℚ)
    (hs : scoreOf (incidents.get ⟨i, hi⟩) ≤ s')
    (hrel : isRelevant (dynamic_threshold incidents) (promptKeywords q)
      (incidents.get ⟨i, hi⟩) = true) :
    ({ incidents.get ⟨i, hi⟩ with similarity_score := some s' } : Incident) ∈
      (filter_incidents_for_analytics
        (incidents.set i { incidents.get ⟨i, hi⟩ with similarity_score := some s' })
        q).1 := by
  set inc := incidents.get ⟨i, hi⟩ with hinc_def
  set inc' : Incident := { inc with similarity_score := some s' } with hinc'_def
  have hscore' : scoreOf inc' = s' := rfl
  have hset_ne : incidents.set i inc' ≠ [] := by
    intro hcon
    rw [List.set_eq_nil_iff] at hcon
    subst hcon
    simp at hi
  have hmem : inc' ∈ incidents.set i inc' := List.mem_set incidents i hi inc'
  have hpred : isRelevant (dynamic_threshold (incidents.set i inc'))
      (promptKeywords q) inc' = true := by
    by_cases hth : dynamic_threshold (incidents.set i inc') ≤ scoreOf inc'
    · simp [isRelevant, hth]
    · by_cases hth0 : dynamic_threshold incidents ≤ scoreOf inc
      · exact absurd
          (dynamic_threshold_set_le incidents i hi inc' (by rw [hscore']; exact hs) hth0)
          hth
      · have hratio : (3 : ℚ) / 10 ≤ keyword_match_fraction (promptKeywords q) inc := by
          unfold isRelevant at hrel
          rw [if_neg hth0] at hrel
          exact of_decide_eq_true hrel
        have hsame : keyword_match_fraction (promptKeywords q) inc' =
            keyword_match_fraction (promptKeywords q) inc := rfl
        unfold isRelevant
        rw [if_neg hth, hsame]
        exact decide_eq_true hratio
  simp only [filter_incidents_for_analytics, if_neg hset_ne]
  exact List.mem_filter.mpr ⟨hmem, hpred⟩

/-- Witness for claim C5: raising the single record's score from 1 to 2 keeps
it relevant. -/
theorem claim5_witness :
    ({ similarity_score := some 2 } : Incident) ∈
      (filter_incidents_for_analytics [({ similarity_score := some 2 } : Incident)]
        "alpha").1 :=
  claim5_monotonicity [{ similarity_score := some 1 }] "alpha" 0 (by decide) 2
    (by with_unfolding_all decide) (by with_unfolding_all decide)

/-- Adding an occurrence to a counter raises the total count by exactly 1. -/
lemma counterTotal_counterAdd (c : List (String × ℕ)) (k : String) :
    counterTotal (counterAdd c k) = counterTotal c + 1 := by
  induction c with
  | nil => simp [counterAdd, counterTotal]
  | cons p rest ih =>
    obtain ⟨k', n⟩ := p
    by_cases h : k' = k
    · simp [counterAdd, h, counterTotal]
      omega
    · simp [counterAdd, h, counterTotal] at ih ⊢
      omega

/-- The batch of spec scenario C: five closed incidents credited to a resolver
and five closed incidents with an empty `resolved_by`, all with score 1 so
that the whole batch is classified relevant. -/
def claim6_batch : List Incident :=
  List.replicate 5
      ({ state := some "Closed", resolved_by := some "Alice",
         similarity_score := some 1 } : Incident)
    ++ List.replicate 5
      ({ state := some "Closed", resolved_by := some "",
         similarity_score := some 1 } : Incident)

/-- Claim C6: one aggregation step credits the resolver counter exactly when
the normalized state is a closed state and the trimmed `resolved_by` is
non-empty; on scenario C's batch (all ten records relevant, five attributed)
the resolver counter totals 5 while the `Closed` state bucket counts 10. -/
theorem claim6_resolver_credit :
    (∀ (acc : Counters) (inc : Incident),
      counterTotal (aggregateStep acc inc).resolved_by_counter =
        counterTotal acc.resolved_by_counter +
          (if closed_states.contains ((inc.state.getD "").trim.toLower)
              ∧ (inc.resolved_by.getD "").trim ≠ "" then 1 else 0))
    ∧ (filter_incidents_for_analytics claim6_batch "alpha").1 = claim6_batch
    ∧ counterTotal (aggregateCounters claim6_batch).resolved_by_counter = 5
    ∧ counterGet (aggregateCounters claim6_batch).state_counter "Closed" = 10 := by
  refine ⟨?_, ?_, ?_, ?_⟩
  · intro acc inc
    simp only [aggregateStep]
    split_ifs <;> simp_all [counterTotal_counterAdd]
  · with_unfolding_all decide
  · with_unfolding_all decide
  · with_unfolding_all decide

/-- The state bucket a record falls into (src/main.py lines 272-280): `Closed`
for a closed state, `Open` for an open state, `Other` for anything else,
including an empty state. -/
def stateBucket (inc : Incident) : String :=
  let state := ((inc.state.getD "").trim).toLower
  if closed_states.contains state then "Closed"
  else if open_states.contains state then "Open"
  else "Other"

/-- One aggregation step bumps the state counter at exactly the record's
bucket. -/
lemma aggregateStep_state_counter (acc : Counters) (inc : Incident) :
    (aggregateStep acc inc).state_counter =
      counterAdd acc.state_counter (stateBucket inc) := by
  simp only [aggregateStep, stateBucket]
  split_ifs <;> rfl

/-- Folding the aggregation step adds one state-bucket count per record. -/
lemma aggregateCounters_state_total :
    ∀ (l : List Incident) (acc : Counters),
      counterTotal (l.foldl aggregateStep acc).state_counter =
        counterTotal acc.state_counter + l.length := by
  intro l
  induction l with
  | nil =>
    intro acc
    simp
  | cons x xs ih =>
    intro acc
    simp only [List.foldl_cons, List.length_cons]
    rw [ih, aggregateStep_state_counter, counterTotal_counterAdd]
    omega

/-- Claim C7: every relevant record increments exactly one of the three state
buckets of `stateBucket`, so the state counts always sum to the number of
relevant records. -/
theorem claim7_state_partition :
    (∀ (acc : Counters) (inc : Incident),
      (aggregateStep acc inc).state_counter =
        counterAdd acc.state_counter (stateBucket inc))
    ∧ (∀ relevant : List Incident,
      counterTotal (aggregateCounters relevant).state_counter = relevant.length) := by
  refine ⟨aggregateStep_state_counter, ?_⟩
  intro relevant
  have h := aggregateCounters_state_total relevant {}
  simpa [aggregateCounters, counterTotal] using h

/-- Membership after a stable descending insertion: the element is the
inserted one or was already present. -/
lemma mem_insertCountDesc (z x : String × ℕ) :
    ∀ l : List (String × ℕ), z ∈ insertCountDesc x l → z = x ∨ z ∈ l := by
  intro l
  induction l with
  | nil =>
    intro h
    simp [insertCountDesc] at h
    exact Or.inl h
  | cons y ys ih =>
    intro h
    by_cases hc : x.2 < y.2
    · simp only [insertCountDesc] at h
      rw [if_pos hc] at h
      rcases List.mem_cons.mp h with h1 | h2
      · exact Or.inr (List.mem_cons.mpr (Or.inl h1))
      · rcases ih h2 with h3 | h4
        · exact Or.inl h3
        · exact Or.inr (List.mem_cons.mpr (Or.inr h4))
    · simp only [insertCountDesc] at h
      rw [if_neg hc] at h
      rcases List.mem_cons.mp h with h1 | h2
      · exact Or.inl h1
      · exact Or.inr h2

/-- Stable descending insertion preserves the sorted-by-count-descending
invariant. -/
lemma pairwise_insertCountDesc (x : String × ℕ) :
    ∀ l : List (String × ℕ), l.Pairwise (fun a b => b.2 ≤ a.2) →
      (insertCountDesc x l).Pairwise (fun a b => b.2 ≤ a.2) := by
  intro l
  induction l with
  | nil =>
    intro _
    simp [insertCountDesc]
  | cons y ys ih =>
    intro hp
    rw [List.pairwise_cons] at hp
    obtain ⟨hy, hys⟩ := hp
    by_cases hc : x.2 < y.2
    · simp only [insertCountDesc]
      rw [if_pos hc, List.pairwise_cons]
      constructor
      · intro z hz
        rcases mem_insertCountDesc z x ys hz with h1 | h2
        · rw [h1]
          exact Nat.le_of_lt hc
        · exact hy z h2
      · exact ih hys
    · simp only [insertCountDesc]
      rw [if_neg hc, List.pairwise_cons]
      have hyx : y.2 ≤ x.2 := Nat.le_of_not_lt hc
      constructor
      · intro z hz
        rcases List.mem_cons.mp hz with h1 | h2
        · rw [h1]
          exact hyx
        · exact le_trans (hy z h2) hyx
      · exact List.pairwise_cons.mpr ⟨hy, hys⟩

/-- The stable sort orders counter entries by count descending. -/
lemma sortCountDesc_pairwise (c : List (String × ℕ)) :
    (sortCountDesc c).Pairwise (fun a b => b.2 ≤ a.2) := by
  induction c with
  | nil => simp [sortCountDesc]
  | cons x xs ih => exact pairwise_insertCountDesc x (sortCountDesc xs) ih

/-- Stability of the insertion, characterized by filters: restricted to any
fixed count value, inserting prepends the new entry exactly when it carries
that count, so the relative order of equal-count entries never changes. -/
lemma filter_insertCountDesc (x : String × ℕ) (k : ℕ) :
    ∀ l : List (String × ℕ),
      (insertCountDesc x l).filter (fun p => p.2 = k) =
        if x.2 = k then x :: l.filter (fun p => p.2 = k)
        else l.filter (fun p => p.2 = k) := by
  intro l
  induction l with
  | nil =>
    by_cases hx : x.2 = k <;> simp [insertCountDesc, hx]
  | cons y ys ih =>
    by_cases hc : x.2 < y.2
    · simp only [insertCountDesc]
      rw [if_pos hc]
      by_cases hy : y.2 = k
      · have hx : ¬(x.2 = k) := by omega
        simp [List.filter_cons, hy, hx, ih]
      · simp [List.filter_cons, hy, ih]
    · simp only [insertCountDesc]
      rw [if_neg hc]
      by_cases hx : x.2 = k <;> by_cases hy : y.2 = k <;>
        simp [List.filter_cons, hx, hy]

/-- Stability of the whole sort: filtered to any fixed count value, the sorted
list equals the insertion-ordered input. -/
lemma filter_sortCountDesc (k : ℕ) :
    ∀ c : List (String × ℕ),
      (sortCountDesc c).filter (fun p => p.2 = k) =
        c.filter (fun p => p.2 = k) := by
  intro c
  induction c with
  | nil => rfl
  | cons x xs ih =>
    simp only [sortCountDesc]
    rw [filter_insertCountDesc]
    by_cases hx : x.2 = k <;> simp [List.filter_cons, hx, ih]

/-- Claim C8: the top-N selection takes the first N entries of the stable
descending sort; the sort is ordered by count descending and keeps
equal-count entries in first-encountered order (filter characterization and
the concrete Alice/Bob tie in both encounter orders); the configured cutoffs
are 10 for resolvers, 8 for assignment groups and 6 for CI classes. -/
theorem claim8_top_n :
    (∀ (c : List (String × ℕ)) (n : ℕ), mostCommon c n = (sortCountDesc c).take n)
    ∧ (∀ c : List (String × ℕ), (sortCountDesc c).Pairwise (fun a b => b.2 ≤ a.2))
    ∧ (∀ (c : List (String × ℕ)) (k : ℕ),
        (sortCountDesc c).filter (fun p => p.2 = k) = c.filter (fun p => p.2 = k))
    ∧ mostCommon [("Alice", 2), ("Bob", 2)] 10 = [("Alice", 2), ("Bob", 2)]
    ∧ mostCommon [("Bob", 2), ("Alice", 2)] 10 = [("Bob", 2), ("Alice", 2)]
    ∧ (∀ (incidents : List Incident) (q : String) (d : AnalyticsData),
        compute_analytics_data incidents q = some d →
        d.top_resolvers =
            mostCommon (aggregateCounters
              (filter_incidents_for_analytics incidents q).1).resolved_by_counter 10
        ∧ d.top_groups =
            mostCommon (aggregateCounters
              (filter_incidents_for_analytics incidents q).1).assignment_group_counter 8
        ∧ d.top_ci_classes =
            mostCommon (aggregateCounters
              (filter_incidents_for_analytics incidents q).1).ci_class_counter 6) := by
  refine ⟨fun c n => rfl, sortCountDesc_pairwise, fun c k => filter_sortCountDesc k c,
    by with_unfolding_all decide, by with_unfolding_all decide, ?_⟩
  intro incidents q d hd
  simp only [compute_analytics_data] at hd
  by_cases h1 : incidents = []
  · rw [if_pos h1] at hd
    exact absurd hd (by simp)
  · rw [if_neg h1] at hd
    by_cases h2 : (filter_incidents_for_analytics incidents q).1 = []
    · rw [if_pos h2] at hd
      exact absurd hd (by simp)
    · rw [if_neg h2] at hd
      obtain rfl := (Option.some.inj hd).symm
      exact ⟨rfl, rfl, rfl⟩

/-- The single relevant, attributed record used by the claim C8 witness. -/
def claim8_record : Incident :=
  { state := some "Closed", resolved_by := some "Alice", similarity_score := some 1 }

/-- Witness for claim C8: a concrete analytics run whose top-resolver list is
the stable top-10 of the resolver counter. -/
theorem claim8_witness :
    compute_analytics_data [claim8_record] "alpha" =
      some ⟨1, 39, 1, 0, 0, [("Alice", 1)], [], []⟩
    ∧ (⟨1, 39, 1, 0, 0, [("Alice", 1)], [], []⟩ : AnalyticsData).top_resolvers =
        mostCommon (aggregateCounters
          (filter_incidents_for_analytics [claim8_record] "alpha").1).resolved_by_counter
          10 :=
  ⟨by with_unfolding_all decide,
   (claim8_top_n.2.2.2.2.2 [claim8_record] "alpha" ⟨1, 39, 1, 0, 0, [("Alice", 1)], [], []⟩
     (by with_unfolding_all decide)).1⟩

/-- A kept hit normalizes to the record with every string field defaulted to
the empty string and the score taken with `hit.get("score", 0.0)`. -/
lemma normalizeHit_eq_some {hit : Hit} {r : Incident}
    (h : normalizeHit hit = some r) :
    r = { incident := some ((hit.payload.getD {}).number.getD "")
          job_name := some ((hit.payload.getD {}).job_name.getD "")
          description := some ((hit.payload.getD {}).description.getD "")
          impact := some ((hit.payload.getD {}).impact.getD "")
          closure_notes := some ((hit.payload.getD {}).closure_notes.getD "")
          assigned_to := some ((hit.payload.getD {}).assigned_to.getD "")
          assignment_group := some ((hit.payload.getD {}).assignment_group.getD "")
          configuration_item := some ((hit.payload.getD {}).configuration_item.getD "")
          ci_class := some ((hit.payload.getD {}).ci_class.getD "")
          opened_by := some ((hit.payload.getD {}).opened_by.getD "")
          resolved_by := some ((hit.payload.getD {}).resolved_by.getD "")
          closed_by := some ((hit.payload.getD {}).closed_by.getD "")
          opened_time := some ((hit.payload.getD {}).opened_time.getD "")
          resolved := some ((hit.payload.getD {}).resolved.getD "")
          closed := some ((hit.payload.getD {}).closed.getD "")
          priority := some ((hit.payload.getD {}).priority.getD "")
          urgency := some ((hit.payload.getD {}).urgency.getD "")
          state := some ((hit.payload.getD {}).state.getD "")
          similarity_score := some (hit.score.getD 0) } := by
  simp only [normalizeHit] at h
  by_cases hid : (hit.payload.getD {}).number.getD "" = ""
  · rw [if_pos hid] at h
    exact absurd h (by simp)
  · rw [if_neg hid] at h
    exact (Option.some.inj h).symm

/-- Claim C9: the normalizer is total (it is a Lean function, so it cannot
raise); a hit whose payload lacks the `number` key is skipped without
aborting the rest of the batch; every string field of a kept record is
`some`-wrapped with the empty string as default, and a present score is
passed through unmodified. -/
theorem claim9_normalizer :
    (∀ hit : Hit, (hit.payload.getD {}).number = none → normalizeHit hit = none)
    ∧ (∀ (hit : Hit) (hits : List Hit), (hit.payload.getD {}).number = none →
        get_incidents_from_qdrant (hit :: hits) = get_incidents_from_qdrant hits)
    ∧ (∀ (hit : Hit) (r : Incident), normalizeHit hit = some r →
        r.similarity_score = some (hit.score.getD 0)
        ∧ r.incident = some ((hit.payload.getD {}).number.getD "")
        ∧ r.job_name = some ((hit.payload.getD {}).job_name.getD "")
        ∧ r.description = some ((hit.payload.getD {}).description.getD "")
        ∧ r.impact = some ((hit.payload.getD {}).impact.getD "")
        ∧ r.closure_notes = some ((hit.payload.getD {}).closure_notes.getD "")
        ∧ r.assigned_to = some ((hit.payload.getD {}).assigned_to.getD "")
        ∧ r.assignment_group = some ((hit.payload.getD {}).assignment_group.getD "")
        ∧ r.configuration_item = some ((hit.payload.getD {}).configuration_item.getD "")
        ∧ r.ci_class = some ((hit.payload.getD {}).ci_class.getD "")
        ∧ r.opened_by = some ((hit.payload.getD {}).opened_by.getD "")
        ∧ r.resolved_by = some ((hit.payload.getD {}).resolved_by.getD "")
        ∧ r.closed_by = some ((hit.payload.getD {}).closed_by.getD "")
        ∧ r.opened_time = some ((hit.payload.getD {}).opened_time.getD "")
        ∧ r.resolved = some ((hit.payload.getD {}).resolved.getD "")
        ∧ r.closed = some ((hit.payload.getD {}).closed.getD "")
        ∧ r.priority = some ((hit.payload.getD {}).priority.getD "")
        ∧ r.urgency = some ((hit.payload.getD {}).urgency.getD "")
        ∧ r.state = some ((hit.payload.getD {}).state.getD ""))
    ∧ (∀ (hit : Hit) (s : ℚ) (r : Incident), hit.score = some s →
        normalizeHit hit = some r → r.similarity_score = some s) := by
  refine ⟨?_, ?_, ?_, ?_⟩
  · intro hit h
    simp [normalizeHit, h]
  · intro hit hits h
    simp [get_incidents_from_qdrant, List.filterMap_cons, normalizeHit, h]
  · intro hit r h
    rw [normalizeHit_eq_some h]
    simp
  · intro hit s r hs h
    rw [normalizeHit_eq_some h, hs]
    simp

/-- A skipped hit for the claim C9 witness: its payload exists but carries no
`number` key. -/
def claim9_bad_hit : Hit :=
  { payload := some {}, score := some 1 }

/-- A kept hit for the claim C9 witness. -/
def claim9_good_hit : Hit :=
  { payload := some { number := some "INC5" }, score := some (1 / 2) }

/-- The record `claim9_good_hit` normalizes to. -/
def claim9_rec : Incident :=
  { incident := some "INC5", job_name := some "", description := some ""
    impact := some "", closure_notes := some "", assigned_to := some ""
    assignment_group := some "", configuration_item := some "", ci_class := some ""
    opened_by := some "", resolved_by := some "", closed_by := some ""
    opened_time := some "", resolved := some "", closed := some ""
    priority := some "", urgency := some "", state := some ""
    similarity_score := some (1 / 2) }

/-- Witness for claim C9 on concrete hits: the identifier-less hit is skipped
without dropping the rest of the batch, and the kept hit's score passes
through. -/
theorem claim9_witness :
    normalizeHit claim9_bad_hit = none
    ∧ get_incidents_from_qdrant [claim9_bad_hit, claim9_good_hit] =
        get_incidents_from_qdrant [claim9_good_hit]
    ∧ claim9_rec.similarity_score = some (1 / 2) :=
  ⟨claim9_normalizer.1 claim9_bad_hit rfl,
   claim9_normalizer.2.1 claim9_bad_hit [claim9_good_hit] rfl,
   claim9_normalizer.2.2.2 claim9_good_hit (1 / 2) claim9_rec rfl
     (by with_unfolding_all decide)⟩

/-- Claim C10: a hit with no score is normalized with similarity score 0; a
record with no `similarity_score` field is scored 0 by the classifier; such a
score is strictly below the dynamic threshold (which is at least 0.6 for any
batch), so the record can become relevant only through the keyword-overlap
fallback. -/
theorem claim10_default_score :
    (∀ (hit : Hit) (r : Incident), hit.score = none → normalizeHit hit = some r →
        r.similarity_score = some 0)
    ∧ (∀ inc : Incident, inc.similarity_score = none → scoreOf inc = 0)
    ∧ (∀ (incidents : List Incident) (inc : Incident), inc.similarity_score = none →
        scoreOf inc < dynamic_threshold incidents)
    ∧ (∀ (incidents : List Incident) (q : String) (inc : Incident),
        inc.similarity_score = none →
        (isRelevant (dynamic_threshold incidents) (promptKeywords q) inc = true ↔
          (3 : ℚ) / 10 ≤ keyword_match_fraction (promptKeywords q) inc)) := by
  have hscore : ∀ inc : Incident, inc.similarity_score = none → scoreOf inc = 0 := by
    intro inc h
    simp [scoreOf, h]
  have hlt : ∀ (incidents : List Incident) (inc : Incident),
      inc.similarity_score = none → scoreOf inc < dynamic_threshold incidents := by
    intro incidents inc h
    rw [hscore inc h]
    have hfl : (3 : ℚ) / 5 ≤ dynamic_threshold incidents := by
      unfold dynamic_threshold
      exact le_max_right _ _
    linarith
  refine ⟨?_, hscore, hlt, ?_⟩
  · intro hit r hs h
    rw [normalizeHit_eq_some h, hs]
    simp
  · intro incidents q inc h
    unfold isRelevant
    rw [if_neg (not_le.mpr (hlt incidents inc h))]
    simp

/-- A record with no similarity score, for the claim C10 witness. -/
def claim10_inc : Incident :=
  { description := some "db" }

/-- Witness for claim C10: the score-less record scores 0, sits below the
threshold of its own batch, and its relevance reduces to the keyword
fallback. -/
theorem claim10_witness :
    scoreOf claim10_inc = 0
    ∧ scoreOf claim10_inc < dynamic_threshold [claim10_inc]
    ∧ (isRelevant (dynamic_threshold [claim10_inc]) (promptKeywords "alpha")
          claim10_inc = true ↔
        (3 : ℚ) / 10 ≤ keyword_match_fraction (promptKeywords "alpha") claim10_inc) :=
  ⟨claim10_default_score.2.1 claim10_inc rfl,
   claim10_default_score.2.2.1 [claim10_inc] claim10_inc rfl,
   claim10_default_score.2.2.2 [claim10_inc] "alpha" claim10_inc rfl⟩
theorem claim3_witness :
    ({ description := some "db", similarity_score := some 1 } : Incident) ∈
      (filter_incidents_for_analytics
        [{ description := some "db", similarity_score := some 1 }] "alpha").1 :=
  ((claim3_classification
      [{ description := some "db", similarity_score := some 1 }] "alpha"
      { description := some "db", similarity_score := some 1 }
      (List.mem_singleton.mpr rfl)).1).mpr
    (Or.inl (by with_unfolding_all decide))
